import Mathlib

/-!
Shallow embedding of the Jerry voice-assistant core (src/Jerry) in Lean 4,
covering the command dispatcher in main.py, the conversation history, the
SystemManager power-control calls, and the platform voice and application
discovery in platform_utils.py.  Python strings are modelled as Lean
strings over their character lists; only ASCII case folding matters for the
fixed-vocabulary triggers, so lowering maps the ASCII range as CPython does
there.  External collaborators (weather HTTP provider, news provider,
speech engine, NLP sentiment model, subprocess output, registry contents)
are threaded through an explicit environment record, and invoking one is
recorded as an explicit action.  Python exceptions that escape a function
are modelled with Except.
-/

namespace Jerry

/-- Characters that Python str.strip removes (ASCII whitespace range used
by CPython: space, tab, newline, carriage return, vertical tab, form feed). -/
def isPyWhitespace (c : Char) : Bool :=
  c = ' ' || c = '\t' || c = '\n' || c = '\r' || c = '\x0b' || c = '\x0c'

/-- Python str.lower on the ASCII range (the fixed command vocabulary is ASCII). -/
def pyLower (s : String) : String :=
  ⟨s.data.map Char.toLower⟩

/-- Python str.strip: drop leading and trailing whitespace. -/
def pyStripList (s : List Char) : List Char :=
  ((s.dropWhile isPyWhitespace).reverse.dropWhile isPyWhitespace).reverse

/-- Python str.strip lifted to String. -/
def pyStrip (s : String) : String :=
  ⟨pyStripList s.data⟩

/-- The normalization performed at main.py line 155: command.lower().strip(). -/
def pyNorm (s : String) : String :=
  pyStrip (pyLower s)

/-- Contiguous-sublist test on character lists: pat occurs inside s.
This is the semantics of the Python membership test pat in s. -/
def subListOf (pat : List Char) : List Char → Bool
  | [] => pat.isEmpty
  | c :: t => pat.isPrefixOf (c :: t) || subListOf pat t

/-- Python substring containment pat in s, on the normalized command text. -/
def pyIn (pat s : String) : Bool :=
  subListOf pat.data s.data

/-- Python str.replace old new: replace every non-overlapping occurrence of
old, scanning left to right (old is non-empty at every use site in main.py).
The fuel argument only makes the recursion structural; every step consumes at
least one character of the scanned list, so with fuel at least its length the
fuel is never exhausted. -/
def replaceAllFuel (old new : List Char) : Nat → List Char → List Char
  | 0, s => s
  | _ + 1, [] => []
  | fuel + 1, c :: rest =>
    if old.isPrefixOf (c :: rest) ∧ old ≠ [] then
      new ++ replaceAllFuel old new fuel (rest.drop (old.length - 1))
    else
      c :: replaceAllFuel old new fuel rest

/-- Python str.replace lifted to String. -/
def pyReplace (s old new : String) : String :=
  ⟨replaceAllFuel old.data new.data s.data.length s.data⟩

/-- Split a character list at every character satisfying p, keeping empty
fields, as Python str.split with an explicit one-character separator does. -/
def splitBy (p : Char → Bool) : List Char → List (List Char)
  | [] => [[]]
  | c :: t =>
    if p c then [] :: splitBy p t
    else
      match splitBy p t with
      | [] => [[c]]
      | h :: r => (c :: h) :: r

/-- Python str.split with a newline separator, lifted to String: the model of
result.stdout.split applied with a newline in platform_utils.py. -/
def pySplitNewline (s : String) : List String :=
  (splitBy (fun c => c = '\n') s.data).map (fun l => ⟨l⟩)

/-- Python str.split with no argument: split on whitespace runs, discarding
empty fields. -/
def pySplitWs (s : String) : List String :=
  ((splitBy isPyWhitespace s.data).filter (fun l => l ≠ [])).map (fun l => ⟨l⟩)

/-- One entry of VirtualAssistant.conversation_history (main.py lines 334-338):
a dict with keys text, speaker and timestamp. -/
structure Turn where
  text : String
  speaker : String
  timestamp : String
deriving DecidableEq, Repr

/-- VirtualAssistant.max_history_length (main.py line 79). -/
def max_history_length : Nat := 10

/-- Embeds VirtualAssistant.update_conversation_history (main.py lines 332-342):
append the new turn, then pop the oldest entry if the length now exceeds
max_history_length. -/
def update_conversation_history (hist : List Turn) (text speaker timestamp : String) :
    List Turn :=
  let h := hist ++ [⟨text, speaker, timestamp⟩]
  if h.length > max_history_length then h.drop 1 else h

/-- Folding a whole sequence of appends through update_conversation_history,
starting from the empty history created in VirtualAssistant.__init__
(main.py line 78). -/
def historyAfter (turns : List Turn) : List Turn :=
  turns.foldl (fun h t => update_conversation_history h t.text t.speaker t.timestamp) []

deriving instance DecidableEq for Except

/-- A Python exception escaping a function of the core. -/
inductive PyErr where
  | typeError (msg : String)
  | nameError (msg : String)
  | keyError (key : String)
deriving DecidableEq, Repr

/-- The argument VirtualAssistant.process_command receives: either a Python
string or some non-string value (the isinstance check at main.py line 151
rejects the latter). -/
inductive PyValue where
  | str (s : String)
  | nonStr
deriving DecidableEq, Repr

/-- An observable effect of one process_command call: a spoken response or an
invocation of a feature action on an external collaborator. -/
inductive Act where
  | speak (msg : String)
  | openUrl (url : String)
  | searchYoutube (query : String)
  | searchGoogle (query : String)
  | cancelShutdownCall
  | restartCall
  | sleepCall
  | openApp (path : String)
  | getWeather (city : String)
  | getNews
  | getLocation
  | wikiSearch (query : String)
  | takeScreenshot
deriving DecidableEq, Repr

/-- Result of a subprocess.run invocation as seen by the voice enumeration:
either it completed and produced stdout text, or the call raised
(for example FileNotFoundError when the binary is absent). -/
inductive SubprocessResult where
  | ok (stdout : String)
  | raises (msg : String)
deriving DecidableEq, Repr

/-- Result of opening the Windows speech-voices registry key: either the list
of enumerated sub-key names (winreg.EnumKey until OSError), or the OSError or
PermissionError raised by winreg.OpenKey. -/
inductive RegResult where
  | keys (ks : List String)
  | raises (msg : String)
deriving DecidableEq, Repr

/-- Result of LocationManager.get_location (features/location_manager.py):
on success a dict with city, region and country keys; on any exception a
dict holding only an error key. -/
inductive LocReply where
  | found (city region country : String)
  | errDict (msg : String)
deriving DecidableEq, Repr

/-- External collaborators and deployment facts threaded through the
dispatcher: which optional dependencies are missing (main.py
check_dependencies), the platform flag, the application cache held by
PlatformUtils, and the replies of the external providers (weather, news,
location, wikipedia, screenshot path, NLP sentiment label, the index
random.choice picks, and the timestamp datetime.now().isoformat() yields). -/
structure Env where
  pywhatkitMissing : Bool
  pyautoguiMissing : Bool
  wikipediaMissing : Bool
  isWindows : Bool
  appCache : List (String × String)
  weatherReply : String → String
  newsReply : List String
  locationReply : LocReply
  wikiReply : String → String
  screenshotPath : String
  sentimentLabel : String → String
  choiceIdx : Nat
  timestamp : String

/-- Embeds PlatformUtils.scan_for_applications (platform_utils.py lines
115-132).  The body evaluates time.time() at line 121 before visiting any
root location, but platform_utils.py never imports time (its imports, lines
2-8, are os, platform, subprocess, logging, winreg, pathlib and typing), so
every call raises NameError and no application index is ever returned. -/
def scan_for_applications (max_depth : Nat) (timeout : Nat) :
    Except PyErr (List (String × String)) :=
  .error (.nameError "name \x27time\x27 is not defined")

/-- Embeds PlatformUtils.find_application (platform_utils.py lines 193-203):
lower-case the name, return the cached path on a hit, otherwise run
scan_for_applications (with its default arguments max_depth=3, timeout=60)
and re-check — the scan raises NameError, which propagates to the caller. -/
def find_application (cache : List (String × String)) (app_name : String) :
    Except PyErr (Option String) :=
  let n := pyLower app_name
  match cache.lookup n with
  | some p => .ok (some p)
  | none =>
    match scan_for_applications 3 60 with
    | .error e => .error e
    | .ok paths => .ok (paths.lookup n)

/-- Embeds PlatformUtils._get_windows_voices (platform_utils.py lines 73-93):
on a non-Windows system return a catalog holding one empty identifier;
otherwise enumerate the registry voice tokens (an OpenKey failure is caught
and leaves the list empty) and fall back to the hard-coded Zira token when
the list is empty. -/
def get_windows_voices (is_windows : Bool) (reg : RegResult) : List String :=
  if !is_windows then [""]
  else
    let voices :=
      match reg with
      | .raises _ => []
      | .keys ks =>
        ks.map (fun k =>
          "HKEY_LOCAL_MACHINE\\SOFTWARE\\Microsoft\\Speech\\Voices\\Tokens\\" ++ k)
    if voices.isEmpty then
      ["HKEY_LOCAL_MACHINE\\SOFTWARE\\Microsoft\\Speech\\Voices\\Tokens\\TTS_MS_EN-US_ZIRA_11.0"]
    else voices

/-- Parsing step of PlatformUtils._get_mac_voices: for each non-empty line of
stdout take line.split()[0]; a whitespace-only line makes the subscript raise
IndexError, modelled as none. -/
def macParse (out : String) : Option (List String) :=
  ((pySplitNewline out).filter (fun l => l ≠ "")).mapM (fun l => (pySplitWs l).head?)

/-- Embeds PlatformUtils._get_mac_voices (platform_utils.py lines 95-103):
any exception (a failed subprocess.run or an IndexError while parsing) is
caught and yields the one-element samantha fallback; otherwise the parsed
voice names are prefixed and lower-cased.  An empty stdout parses to an
empty catalog with no exception, so no fallback applies. -/
def get_mac_voices (res : SubprocessResult) : List String :=
  match res with
  | .raises _ => ["com.apple.speech.synthesis.voice.samantha"]
  | .ok out =>
    match macParse out with
    | none => ["com.apple.speech.synthesis.voice.samantha"]
    | some vs => vs.map (fun v => "com.apple.speech.synthesis.voice." ++ pyLower v)

/-- Parsing step of PlatformUtils._get_linux_voices: for each non-empty line
of stdout after the header line take line.split()[2]; a line with fewer than
three whitespace-separated fields makes the subscript raise IndexError,
modelled as none. -/
def linuxParse (out : String) : Option (List String) :=
  (((pySplitNewline out).drop 1).filter (fun l => l ≠ "")).mapM
    (fun l => (pySplitWs l).get? 2)

/-- Embeds PlatformUtils._get_linux_voices (platform_utils.py lines 105-113):
any exception (a failed subprocess.run or an IndexError while parsing) is
caught and yields the one-element default fallback; unlike the Windows
variant there is no fallback on an empty parse result, so an empty or
header-only stdout yields an empty catalog. -/
def get_linux_voices (res : SubprocessResult) : List String :=
  match res with
  | .raises _ => ["default"]
  | .ok out =>
    match linuxParse out with
    | none => ["default"]
    | some vs => vs

/-- The OS family platform.system() reports, routing the per-platform voice
enumeration in PlatformUtils.get_default_voice. -/
inductive PlatformKind where
  | windows
  | mac
  | linux
  | other
deriving DecidableEq, Repr

/-- The catalog the per-platform branch of get_default_voice consults
(platform_utils.py lines 63-68): Windows and mac have their own enumerators
and every other system reaches the Linux one through the final else. -/
def platform_voice_catalog (p : PlatformKind) (reg : RegResult)
    (macRes linuxRes : SubprocessResult) : List String :=
  match p with
  | .windows => get_windows_voices true reg
  | .mac => get_mac_voices macRes
  | .linux => get_linux_voices linuxRes
  | .other => get_linux_voices linuxRes

/-- Embeds PlatformUtils.get_default_voice (platform_utils.py lines 60-71):
take element zero of the per-platform catalog; any exception — in practice
the IndexError on an empty catalog — is caught and yields the empty
string. -/
def get_default_voice (p : PlatformKind) (reg : RegResult)
    (macRes linuxRes : SubprocessResult) : String :=
  match platform_voice_catalog p reg macRes linuxRes with
  | [] => ""
  | v :: _ => v

/-- Embeds the body of SystemManager.cancel_shutdown (features/system_manager.py
lines 18-25): issue the platform cancel command and return the status
message.  This is a well-formed staticmethod (no self parameter), so the
call from main.py would succeed if its branch were ever reached. -/
def cancel_shutdown : List Act × String :=
  ([.cancelShutdownCall], "Shutdown canceled")

/-- Embeds the call self.system.shutdown(confirm=b) at main.py lines 194 and
196.  In features/system_manager.py lines 6-7, SystemManager.shutdown is
declared @staticmethod yet its parameter list starts with self, so the
access through the instance does not bind self; the call supplies only the
keyword confirm and Python raises TypeError before the method body runs.
The body (the confirmation prompt without confirm, the os.system shutdown
command with it) is therefore unreachable from the dispatcher. -/
def callSystemShutdown (confirm : Bool) : Except PyErr (List Act × String) :=
  .error (.typeError "shutdown() missing 1 required positional argument: \x27self\x27")

/-- The dangerous-character set of main.py line 158, set of the characters of
the literal backtick dollar parens braces brackets ampersand pipe semicolon
backslash. -/
def dangerous_chars : List Char :=
  [Char.ofNat 96, '$', '(', ')', Char.ofNat 123, Char.ofNat 125,
   '[', ']', '&', '|', ';', '\\']

/-- The rejection test of main.py line 159: some character of the normalized
command belongs to the dangerous set. -/
def hasDangerous (c : String) : Bool :=
  c.data.any (fun ch => dangerous_chars.contains ch)

/-- Embeds VirtualAssistant.generate_response (main.py lines 374-391): ask the
sentiment collaborator for a label and answer with one of the canned replies;
random.choice is resolved by the environment index. -/
def generate_response (env : Env) (text : String) : String :=
  let lbl := env.sentimentLabel text
  if lbl = "POSITIVE" then
    (["That sounds great!", "I\x27m glad to hear that.", "Wonderful!"]).getD
      (env.choiceIdx % 3) ""
  else if lbl = "NEGATIVE" then
    (["I\x27m sorry you\x27re feeling that way.", "That sounds challenging.",
      "I hope things get better."]).getD (env.choiceIdx % 3) ""
  else
    "I\x27m not sure how to respond to that, but I\x27m here to help!"

/-- The enumerated headline announcements of the news branch (main.py lines
239-240), numbering from one as enumerate(..., 1) does. -/
def newsSpeaks : Nat → List String → List Act
  | _, [] => []
  | i, h :: t => .speak ("Headline " ++ toString i ++ ": " ++ h) :: newsSpeaks (i + 1) t

/-- Embeds the first elif chain of process_command (main.py lines 172-188),
the branches following the farewell test: open youtube, play, and
search-and-google.  hasattr(self, browser) is always true because __init__
assigns self.browser unconditionally at main.py line 53, so the two
browser-unavailable else branches are unreachable; the play branch instead
tests missing_deps directly. -/
def browser_chain (env : Env) (c : String) : List Act :=
  if pyIn "open youtube" c then [.openUrl "youtube.com"]
  else if pyIn "play" c then
    if env.pywhatkitMissing then
      [.speak "I\x27m sorry, YouTube features are unavailable due to missing dependencies."]
    else
      [.searchYoutube (pyStrip (pyReplace c "play" ""))]
  else if pyIn "search" c && pyIn "google" c then
    [.searchGoogle (pyStrip (pyReplace (pyReplace c "search" "") "google" ""))]
  else []

/-- Embeds the second if chain of process_command (main.py lines 191-276),
which runs after the first chain because line 191 opens a new if statement
rather than continuing the elif chain.  hasattr holds for system, location
and platform_utils (assigned unconditionally in __init__); weather and news
exist iff pywhatkit is not missing, wiki iff wikipedia is not missing,
screenshot iff pyautogui is not missing.  The shutdown branch raises the
TypeError of callSystemShutdown; because the string cancel shutdown contains
the string shutdown, the cancel branch is unreachable.  The where-am-i
branch subscripts the location dict and raises KeyError when the collaborator
answered with its error dict. -/
def system_chain (env : Env) (c : String) : Except PyErr (List Act) :=
  if pyIn "shutdown" c then
    match callSystemShutdown (pyIn "confirm shutdown" c) with
    | .error e => .error e
    | .ok (acts, msg) =>
      .ok (if pyIn "confirm shutdown" c then acts else acts ++ [.speak msg])
  else if pyIn "cancel shutdown" c then
    .ok (cancel_shutdown.1 ++ [.speak cancel_shutdown.2])
  else if pyIn "restart" c then
    .ok [.restartCall]
  else if pyIn "sleep" c then
    .ok [.sleepCall]
  else if pyIn "notepad" c || pyIn "text editor" c then
    match find_application env.appCache (if env.isWindows then "notepad" else "textedit") with
    | .error e => .error e
    | .ok (some p) => .ok (if p = "" then [] else [.openApp p])
    | .ok none => .ok []
  else if pyIn "weather" c then
    .ok (if env.pywhatkitMissing then
      [.speak "Weather features are unavailable due to missing dependencies."]
    else
      [.getWeather "London", .speak (env.weatherReply "London")])
  else if pyIn "news" c then
    .ok (if env.pywhatkitMissing then
      [.speak "News features are unavailable due to missing dependencies."]
    else
      .speak "Here are today\x27s top headlines:" :: .getNews :: newsSpeaks 1 env.newsReply)
  else if pyIn "where am i" c then
    match env.locationReply with
    | .found city region country =>
      .ok [.getLocation,
           .speak ("You are in " ++ city ++ ", " ++ region ++ ", " ++ country)]
    | .errDict _ => .error (.keyError "city")
  else if pyIn "wikipedia" c then
    .ok (if env.wikipediaMissing then
      [.speak "Wikipedia features are unavailable due to missing dependencies."]
    else
      let q := pyStrip (pyReplace c "wikipedia" "")
      [.wikiSearch q, .speak "According to Wikipedia", .speak (env.wikiReply q)])
  else if pyIn "screenshot" c || pyIn "take ss" c then
    .ok (if env.pyautoguiMissing then
      [.speak "Screenshot features are unavailable due to missing dependencies."]
    else
      [.speak "Taking screenshot", .takeScreenshot,
       .speak ("Screenshot saved to " ++ env.screenshotPath)])
  else
    .ok [.speak (generate_response env c)]

/-- Embeds VirtualAssistant.process_command (main.py lines 148-278).  Returns
the new conversation history, the ordered effects, and the continue flag —
or the Python exception that escapes the call.  Control flow follows the
source: reject non-strings and the empty string (line 151), normalize (line
155), reject dangerous characters before any state change (lines 158-161),
append the user turn (line 164), return False from the farewell branch (lines
167-169), otherwise run the browser elif chain and then the separate system
if chain, returning True (line 278). -/
def process_command (env : Env) (hist : List Turn) (input : PyValue) :
    Except PyErr (List Turn × List Act × Bool) :=
  match input with
  | .nonStr => .ok (hist, [], true)
  | .str raw =>
    if raw = "" then .ok (hist, [], true)
    else
      let c := pyNorm raw
      if hasDangerous c then
        .ok (hist,
          [.speak "I\x27m sorry, that command contains characters I can\x27t process."],
          true)
      else
        let hist1 := update_conversation_history hist c "user" env.timestamp
        if pyIn "goodbye" c || pyIn "bye" c then
          .ok (hist1, [.speak "Goodbye! Have a great day!"], false)
        else
          match system_chain env c with
          | .error e => .error e
          | .ok acts2 => .ok (hist1, browser_chain env c ++ acts2, true)

/-- A concrete deployment used to evaluate the dispatcher on closed inputs:
all optional dependencies present, Windows platform, notepad cached, fixed
collaborator replies and timestamp. -/
def sampleEnv : Env where
  pywhatkitMissing := false
  pyautoguiMissing := false
  wikipediaMissing := false
  isWindows := true
  appCache := [("notepad", "C:/Windows/System32/notepad.exe")]
  weatherReply := fun _ => "The temperature in London is 15 degrees with clear sky"
  newsReply := ["headline one"]
  locationReply := .found "London" "England" "United Kingdom"
  wikiReply := fun _ => "a short summary"
  screenshotPath := "C:/Users/u/Screenshots/shot.png"
  sentimentLabel := fun _ => "NEUTRAL"
  choiceIdx := 0
  timestamp := "2026-01-01T00:00:00"

/-! Helper lemmas about the embedded primitives, shared by the claim
theorems below. -/

/-- The executable substring test agrees with the contiguous-sublist
relation. -/
theorem subListOf_correct (p : List Char) (s : List Char) :
    subListOf p s = true ↔ p <:+: s := by
  induction s with
  | nil =>
    simp [subListOf, List.isEmpty_iff, List.infix_nil]
  | cons c t ih =>
    simp [subListOf, List.infix_cons_iff, List.isPrefixOf_iff_prefix, ih]

/-- Containment of a longer trigger implies containment of any trigger that
occurs inside it (for example, a command containing cancel shutdown contains
shutdown). -/
theorem pyIn_mono (p₁ p₂ s : String) (h : p₁.data <:+: p₂.data)
    (h2 : pyIn p₂ s = true) : pyIn p₁ s = true := by
  rw [pyIn, subListOf_correct] at h2 ⊢
  exact h.trans h2

/-- Containment contrapositive: a command free of a short trigger is free of
every longer trigger containing it. -/
theorem pyIn_mono_neg (p₁ p₂ s : String) (h : p₁.data <:+: p₂.data)
    (h2 : pyIn p₁ s = false) : pyIn p₂ s = false := by
  cases hval : pyIn p₂ s with
  | false => rfl
  | true => rw [pyIn_mono p₁ p₂ s h hval] at h2; exact absurd h2 (by simp)

/-- One append step, rephrased as keeping the last max_history_length
entries of the extended history. -/
theorem update_eq_drop (h : List Turn) (t : Turn)
    (hh : h.length ≤ max_history_length) :
    update_conversation_history h t.text t.speaker t.timestamp
      = (h ++ [t]).drop ((h ++ [t]).length - max_history_length) := by
  simp only [update_conversation_history, max_history_length] at *
  by_cases hlen : (h ++ [t]).length > 10
  · rw [if_pos hlen]
    congr 1
    simp only [List.length_append, List.length_cons, List.length_nil] at hlen ⊢
    omega
  · rw [if_neg hlen]
    have h0 : (h ++ [t]).length - 10 = 0 := by
      simp only [List.length_append, List.length_cons, List.length_nil] at hlen ⊢
      omega
    rw [h0, List.drop_zero]

/-- Folding appends through update_conversation_history from any history
within the bound keeps exactly the last max_history_length entries of the
concatenation, in their original order. -/
theorem foldl_update_eq (ts : List Turn) :
    ∀ h : List Turn, h.length ≤ max_history_length →
      ts.foldl (fun acc t => update_conversation_history acc t.text t.speaker t.timestamp) h
        = (h ++ ts).drop ((h ++ ts).length - max_history_length) := by
  induction ts with
  | nil =>
    intro h hh
    simp only [List.foldl_nil, List.append_nil, max_history_length] at *
    have h0 : h.length - 10 = 0 := by omega
    rw [h0, List.drop_zero]
  | cons t ts ih =>
    intro h hh
    rw [List.foldl_cons]
    have hstep := update_eq_drop h t hh
    have hAle : (h ++ [t]).length - max_history_length ≤ (h ++ [t]).length :=
      Nat.sub_le _ _
    have hlen2 : (update_conversation_history h t.text t.speaker t.timestamp).length
        ≤ max_history_length := by
      rw [hstep]
      simp only [List.length_drop, List.length_append, List.length_cons,
        List.length_nil, max_history_length] at *
      omega
    rw [ih _ hlen2, hstep]
    rw [show h ++ t :: ts = (h ++ [t]) ++ ts by simp]
    generalize hA : h ++ [t] = A
    have hAlen : A.length = h.length + 1 := by
      rw [← hA]
      simp
    have h1 : A.drop (A.length - max_history_length) ++ ts
        = (A ++ ts).drop (A.length - max_history_length) := by
      rw [List.drop_append_eq_append_drop]
      have h2 : A.length - max_history_length - A.length = 0 := by omega
      rw [h2, List.drop_zero]
    rw [h1, List.drop_drop]
    congr 1
    simp only [List.length_drop, List.length_append, max_history_length] at *
    omega

/-- Rejection equation for dangerous characters: when the normalized text
holds a character of the disallowed set, process_command answers with the
clarification line, leaves the history untouched, and reports continue. -/
theorem process_command_dangerous (env : Env) (hist : List Turn) (raw : String)
    (h : hasDangerous (pyNorm raw) = true) :
    process_command env hist (.str raw)
      = .ok (hist,
          [.speak "I\x27m sorry, that command contains characters I can\x27t process."],
          true) := by
  have hne : raw ≠ "" := by
    intro e
    subst e
    exact absurd h (by decide)
  simp only [process_command, hne, h]
  simp

/-- Farewell equation: when the normalized text is clean of dangerous
characters and contains goodbye or bye, process_command appends the single
user turn, speaks the farewell, and returns false. -/
theorem process_command_farewell (env : Env) (hist : List Turn) (raw : String)
    (hd : hasDangerous (pyNorm raw) = false)
    (hor : (pyIn "goodbye" (pyNorm raw) || pyIn "bye" (pyNorm raw)) = true) :
    process_command env hist (.str raw)
      = .ok (update_conversation_history hist (pyNorm raw) "user" env.timestamp,
          [.speak "Goodbye! Have a great day!"], false) := by
  have hne : raw ≠ "" := by
    intro e
    subst e
    exact absurd hor (by decide)
  simp only [process_command, hne, hd, hor]
  simp

/-! Claim theorems. -/

/-- Claim C1 (status: code bug in the source).  The claim states that a
normalized command containing shutdown without the phrase confirm shutdown
produces a confirmation prompt without the OS shutdown call, and that one
containing confirm shutdown performs the call.  In the source every such
command instead raises TypeError, because SystemManager.shutdown is declared
a staticmethod whose first parameter is self, so the dispatcher call
self.system.shutdown(confirm=...) under-supplies its arguments.  This
theorem evaluates the dispatcher at both failing inputs: neither speaks a
prompt nor reaches the OS call — the call errors out. -/
theorem c1_shutdown_typeerror :
    process_command sampleEnv [] (.str "shutdown")
      = .error (.typeError "shutdown() missing 1 required positional argument: \x27self\x27")
    ∧ process_command sampleEnv [] (.str "confirm shutdown")
      = .error (.typeError "shutdown() missing 1 required positional argument: \x27self\x27") :=
  ⟨by decide, by decide⟩

/-- Claim C2 (status: code bug in the source).  The claim states that no
exception raised while dispatching a matched feature action escapes
process_command.  Evaluating the dispatcher on a command containing shutdown
shows the TypeError from the broken SystemManager.shutdown staticmethod
escaping process_command, which would terminate the run loop at main.py
line 413. -/
theorem c2_exception_escapes :
    process_command sampleEnv [] (.str "please shutdown")
      = .error (.typeError "shutdown() missing 1 required positional argument: \x27self\x27") := by
  decide

/-- Claim C3 (status: code bug in the source).  The claim states that a
normalized command containing cancel shutdown invokes the cancel-shutdown
operation unconditionally and speaks its status.  In the source the string
cancel shutdown contains the string shutdown, and the if branch for shutdown
at main.py line 191 is tested first, so the elif branch for cancel shutdown
at line 200 is unreachable; the shutdown branch then raises the TypeError of
the broken staticmethod.  This theorem evaluates the dispatcher at the
failing input: no cancel action and no status line occur. -/
theorem c3_cancel_unreachable :
    process_command sampleEnv [] (.str "cancel shutdown")
      = .error (.typeError "shutdown() missing 1 required positional argument: \x27self\x27") := by
  decide

/-- Claim C4 (status: confirmed).  Every input whose normalized form contains
a character of the disallowed set (backtick, dollar, parens, brackets,
braces, ampersand, pipe, semicolon, backslash — exactly the set at main.py
line 158) makes process_command return continue=true with the clarification
line as its only effect: no feature action is invoked and the history is
untouched. -/
theorem c4_dangerous_rejected (env : Env) (hist : List Turn) (raw : String)
    (h : hasDangerous (pyNorm raw) = true) :
    process_command env hist (.str raw)
      = .ok (hist,
          [.speak "I\x27m sorry, that command contains characters I can\x27t process."],
          true) :=
  process_command_dangerous env hist raw h

/-- Witness for C4 at the concrete input echo $HOME, whose normalized form
contains the dollar character. -/
theorem c4_dangerous_rejected_witness :
    process_command sampleEnv [] (.str "echo $HOME")
      = .ok ([],
          [.speak "I\x27m sorry, that command contains characters I can\x27t process."],
          true) :=
  c4_dangerous_rejected sampleEnv [] "echo $HOME" (by decide)

/-- Claim C5 counterexample (status: corrected).  The claim states that at
most one intent rule fires per accepted command and in particular that a
command matching a browser rule does not additionally trigger a system rule.
The command play sleep sounds matches the browser rule play (invoking the
YouTube search) and, because main.py line 191 opens a second if chain
instead of continuing the elif chain, also matches the system rule sleep
(invoking the OS sleep call): two feature actions for one command. -/
theorem c5_counterexample :
    process_command sampleEnv [] (.str "play sleep sounds")
      = .ok ([⟨"play sleep sounds", "user", "2026-01-01T00:00:00"⟩],
          [.searchYoutube "sleep sounds", .sleepCall], true) := by
  decide

/-- Claim C5 as amended (status: corrected).  The intent rules form two
sequential chains (farewell and browser rules; system and information rules
with the default responder), and within each chain the first matching rule
wins; but both chains run, so a command matching a browser rule additionally
executes the first matching rule of the system chain.  Stated for the play
and sleep triggers: a clean, non-farewell command containing play (with
pywhatkit present, not containing open youtube) and containing sleep (not
containing shutdown or restart) invokes both the YouTube search with the
play-stripped query and the OS sleep call. -/
theorem c5_amended (env : Env) (hist : List Turn) (raw : String)
    (hd : hasDangerous (pyNorm raw) = false)
    (hbye : pyIn "bye" (pyNorm raw) = false)
    (hyt : pyIn "open youtube" (pyNorm raw) = false)
    (hplay : pyIn "play" (pyNorm raw) = true)
    (hkit : env.pywhatkitMissing = false)
    (hshut : pyIn "shutdown" (pyNorm raw) = false)
    (hrestart : pyIn "restart" (pyNorm raw) = false)
    (hsleep : pyIn "sleep" (pyNorm raw) = true) :
    process_command env hist (.str raw)
      = .ok (update_conversation_history hist (pyNorm raw) "user" env.timestamp,
          [.searchYoutube (pyStrip (pyReplace (pyNorm raw) "play" "")), .sleepCall],
          true) := by
  have hne : raw ≠ "" := by
    intro e
    subst e
    exact absurd hplay (by decide)
  have hgb : pyIn "goodbye" (pyNorm raw) = false :=
    pyIn_mono_neg "bye" "goodbye" (pyNorm raw) (by decide) hbye
  have hcs : pyIn "cancel shutdown" (pyNorm raw) = false :=
    pyIn_mono_neg "shutdown" "cancel shutdown" (pyNorm raw) (by decide) hshut
  simp only [process_command, browser_chain, system_chain, hne, hd, hgb, hbye,
    hyt, hplay, hkit, hshut, hcs, hrestart, hsleep]
  simp

/-- Witness for the amended C5 at the concrete input play sleep sounds in the
sample deployment. -/
theorem c5_amended_witness :
    process_command sampleEnv [] (.str "play sleep sounds")
      = .ok (update_conversation_history [] (pyNorm "play sleep sounds") "user"
            sampleEnv.timestamp,
          [.searchYoutube (pyStrip (pyReplace (pyNorm "play sleep sounds") "play" "")),
           .sleepCall], true) :=
  c5_amended sampleEnv [] "play sleep sounds" (by decide) (by decide) (by decide)
    (by decide) (by decide) (by decide) (by decide) (by decide)

/-- Claim C6 counterexample (status: corrected).  The claim states that a
farewell input makes process_command return false and append exactly one
assistant farewell turn.  At the input bye the call does return false, but
the resulting history holds zero turns whose speaker is assistant: only the
user turn of main.py line 164 is ever appended, and the spoken farewell is
never recorded. -/
theorem c6_counterexample :
    (process_command sampleEnv [] (.str "bye")).toOption.map
        (fun r => ((r.1.filter (fun t => t.speaker = "assistant")).length, r.2.2))
      = some (0, false) := by
  decide

/-- Claim C6 as amended (status: corrected).  A clean input whose normalized
form contains goodbye or bye makes process_command return false and append
exactly one turn — the user turn; the farewell response is spoken but no
assistant turn is appended to the history. -/
theorem c6_amended (env : Env) (hist : List Turn) (raw : String)
    (hd : hasDangerous (pyNorm raw) = false)
    (hor : (pyIn "goodbye" (pyNorm raw) || pyIn "bye" (pyNorm raw)) = true) :
    process_command env hist (.str raw)
      = .ok (update_conversation_history hist (pyNorm raw) "user" env.timestamp,
          [.speak "Goodbye! Have a great day!"], false) :=
  process_command_farewell env hist raw hd hor

/-- Witness for the amended C6 at the concrete input bye in the sample
deployment. -/
theorem c6_amended_witness :
    process_command sampleEnv [] (.str "bye")
      = .ok (update_conversation_history [] (pyNorm "bye") "user" sampleEnv.timestamp,
          [.speak "Goodbye! Have a great day!"], false) :=
  c6_amended sampleEnv [] "bye" (by decide) (by decide)

/-- Claim C7 (status: confirmed).  After any sequence of appends through
update_conversation_history starting from the empty history, the
conversation history holds at most ten entries and equals exactly the last
ten appended turns in their original order (oldest evicted first): appending
twelve turns leaves turns three through twelve. -/
theorem c7_history_bounded (ts : List Turn) :
    (historyAfter ts).length ≤ max_history_length
    ∧ historyAfter ts = ts.drop (ts.length - max_history_length) := by
  have h := foldl_update_eq ts [] (by simp [max_history_length])
  rw [historyAfter, h]
  simp only [List.nil_append]
  constructor
  · simp only [List.length_drop]
    omega
  · trivial

/-- Claim C8 counterexample (status: corrected).  The claim states that every
per-platform voice enumeration returns a non-empty catalog, falling back to
a hard-coded default when enumeration yields nothing.  On Linux an espeak
run that completes with empty stdout parses to an empty catalog — the
fallback at platform_utils.py line 113 applies only when an exception is
raised — and get_default_voice then returns the empty string through its
caught IndexError. -/
theorem c8_counterexample :
    get_linux_voices (SubprocessResult.ok "") = []
    ∧ get_default_voice .linux (.keys []) (.ok "") (SubprocessResult.ok "") = "" := by
  constructor
  · decide
  · decide

/-- Claim C8 as amended (status: corrected).  The Windows enumeration always
yields a non-empty catalog (hard-coded Zira fallback when the registry
yields nothing or cannot be read); the macOS and Linux enumerations fall
back to their one-element hard-coded default only when enumeration raises,
and a successful listing with no usable lines yields an empty catalog;
get_default_voice returns the first element of the per-platform catalog, or
the empty string when that catalog is empty (the caught IndexError). -/
theorem c8_amended :
    (∀ reg : RegResult, get_windows_voices true reg ≠ [])
    ∧ (∀ m : String, get_mac_voices (.raises m)
        = ["com.apple.speech.synthesis.voice.samantha"])
    ∧ (∀ m : String, get_linux_voices (.raises m) = ["default"])
    ∧ (∀ (p : PlatformKind) (reg : RegResult) (macRes linuxRes : SubprocessResult),
        get_default_voice p reg macRes linuxRes
          = (platform_voice_catalog p reg macRes linuxRes).headD "") := by
  refine ⟨?_, fun m => rfl, fun m => rfl, ?_⟩
  · intro reg
    simp only [get_windows_voices, Bool.not_true, Bool.false_eq_true, if_false]
    split
    · simp
    · rename_i hne
      simp only [List.isEmpty_iff] at hne
      exact hne
  · intro p reg macRes linuxRes
    cases he : platform_voice_catalog p reg macRes linuxRes with
    | nil => simp [get_default_voice, he]
    | cons v vs => simp [get_default_voice, he]

/-- Claim C9 (status: code bug in the source).  The claim states that the
application scan with a zero time budget returns quickly with a subset of
the full-budget index.  The scan never returns at all: its body evaluates
time.time() before visiting any root location, and platform_utils.py does
not import time, so every call — whatever its budget — raises NameError. -/
theorem c9_scan_raises :
    scan_for_applications 3 0 = .error (.nameError "name \x27time\x27 is not defined")
    ∧ scan_for_applications 3 60 = .error (.nameError "name \x27time\x27 is not defined") :=
  ⟨rfl, rfl⟩

/-- An input process_command rejects before dispatch: a non-string value, the
empty string, or a normalized form holding a disallowed character. -/
def rejectedInput : PyValue → Prop
  | .nonStr => True
  | .str raw => raw = "" ∨ hasDangerous (pyNorm raw) = true

/-- Claim C10 (status: confirmed).  Every input rejected before dispatch —
non-string, empty, or containing a disallowed character — leaves the
conversation history exactly as it was: the rejected text is never appended
as a user turn, and the call still reports continue. -/
theorem c10_rejected_frame (env : Env) (hist : List Turn) (input : PyValue)
    (h : rejectedInput input) :
    ∃ acts, process_command env hist input = .ok (hist, acts, true) := by
  cases input with
  | nonStr => exact ⟨[], rfl⟩
  | str raw =>
    rcases h with he | hd
    · subst he
      exact ⟨[], rfl⟩
    · exact ⟨_, process_command_dangerous env hist raw hd⟩

/-- Witness for C10 at the concrete rejected input del; rm, whose normalized
form contains a semicolon. -/
theorem c10_rejected_frame_witness :
    ∃ acts, process_command sampleEnv [] (.str "del; rm") = .ok ([], acts, true) :=
  c10_rejected_frame sampleEnv [] (.str "del; rm") (Or.inr (by decide))

end Jerry
